import Mathlib

/-!
Shallow embedding of the task-management backend's task/document core
(`backend/controllers/taskController.js`, `backend/models/Task.js`,
`backend/services/taskService.js`, `backend/config/constants.js`).

The controller functions are modelled after request parsing: the HTTP layer,
JWT middleware and Multer have already produced the actor identity, the parsed
body fields and the list of accepted uploaded files (each already written to
disk under its generated storage path).  Persistent state is a list of task
records, a list of existing user ids, and the set of file paths present on
disk.  `express-validator` failures (the `validationResult` early returns) are
a collaborator concern and are outside the modelled command surface.
-/

namespace TaskManager

/-- Embedded document metadata (the `attachedDocuments` sub-schema of
`TaskSchema` in `backend/models/Task.js`): Mongo `_id`, original upload name,
storage path and mimetype. -/
structure Doc where
  id : String
  filename : String
  path : String
  mimetype : String
deriving DecidableEq, Repr

/-- Task record, after `TaskSchema` in `backend/models/Task.js`.  User
references and dates are carried as strings, as the controller only ever
compares them (`toString()` comparisons, `$lte` on dates). -/
structure Task where
  id : String
  title : String
  description : String
  status : String
  priority : String
  dueDate : String
  assignedTo : String
  createdBy : String
  attachedDocuments : List Doc
deriving DecidableEq, Repr

/-- A file accepted by the Multer upload middleware: original name, generated
storage path (already written to disk when the controller runs), mimetype. -/
structure FileBlob where
  originalname : String
  path : String
  mimetype : String
deriving DecidableEq, Repr

/-- The authenticated actor (`req.user` produced by the JWT middleware). -/
structure Actor where
  id : String
  role : String
deriving DecidableEq, Repr

/-- Persistent state visible to the controller: the tasks collection, the set
of existing user ids (`User.findById` hits), and the set of file paths present
on local storage. -/
structure St where
  tasks : List Task
  users : List String
  disk : List String
deriving DecidableEq, Repr

/-- Decidable equality for controller results. -/
instance {ε α : Type} [DecidableEq ε] [DecidableEq α] : DecidableEq (Except ε α) := fun x y =>
  match x, y with
  | Except.error a, Except.error b =>
      if h : a = b then isTrue (by rw [h]) else isFalse (fun hc => h (by injection hc))
  | Except.error _, Except.ok _ => isFalse (fun hc => Except.noConfusion hc)
  | Except.ok _, Except.error _ => isFalse (fun hc => Except.noConfusion hc)
  | Except.ok a, Except.ok b =>
      if h : a = b then isTrue (by rw [h]) else isFalse (fun hc => h (by injection hc))

/-- `constants.USER_ROLES.ADMIN` from `backend/config/constants.js`. -/
def ADMIN : String := "admin"

/-- `constants.MAX_DOCUMENTS_PER_TASK` from `backend/config/constants.js`. -/
def MAX_DOCUMENTS_PER_TASK : Nat := 3

/-- Typed failures raised by the controller (§7 of the specification maps
each to an HTTP status; the mapping itself is not modelled). -/
inductive TErr where
  | tooManyDocuments
  | assignedUserNotFound
  | taskNotFound
  | updateForbidden
  | viewForbidden
  | downloadForbidden
  | documentNotFound
  | fileMissingOnDisk
  | invalidFilePath
deriving DecidableEq, Repr

/-- `fs.unlinkSync(p)` (and its `fs.existsSync`-guarded variant): a path names
at most one file, so deletion removes every occurrence of `p` from the disk
set.  Deleting an absent path leaves the set unchanged. -/
def unlink (disk : List String) (p : String) : List String :=
  disk.filter (fun q => q != p)

/-- Sequential `forEach(file => fs.unlinkSync(file.path))` over a path list. -/
def unlinkAll (disk : List String) (ps : List String) : List String :=
  ps.foldl unlink disk

/-- JavaScript truthiness of an optional string request field: present and
not the empty string. -/
def truthy : Option String → Bool
  | some s => s != ""
  | none => false

/-- The `x || old` update idiom of the controller (`task.title = title ||
task.title`): a missing or falsy supplied value keeps the stored one. -/
def fieldOr (o : Option String) (old : String) : String :=
  match o with
  | some s => if s = "" then old else s
  | none => old

/-- `Task.findById` on the tasks collection. -/
def findTaskById (tasks : List Task) (tid : String) : Option Task :=
  tasks.find? (fun t => t.id == tid)

/-- `User.findById(uid)` returning a hit: the user id exists. -/
def userExists (users : List String) (uid : String) : Bool :=
  users.contains uid

/-- Attachment metadata built from an accepted upload (`{ filename:
file.originalname, path: file.path, mimetype: file.mimetype }`).  Mongo
generates the subdocument `_id` on save; it is modelled by the storage path,
which is unique per upload. -/
def docOfFile (f : FileBlob) : Doc :=
  { id := f.path, filename := f.originalname, path := f.path, mimetype := f.mimetype }

/-- Body of a create request.  `createdBy` may be supplied by a client but the
controller's destructuring never reads it (`const createdBy = req.user.id`). -/
structure CreateBody where
  title : String
  description : String
  status : String
  priority : String
  dueDate : String
  assignedTo : String
  createdBy : Option String
deriving DecidableEq, Repr

/-- The `new Task({...})` document built by `createTask`: every field from the
body except `createdBy`, which is `req.user.id`. -/
def builtTask (actorId : String) (body : CreateBody) (files : List FileBlob)
    (newId : String) : Task :=
  { id := newId, title := body.title, description := body.description,
    status := body.status, priority := body.priority, dueDate := body.dueDate,
    assignedTo := body.assignedTo, createdBy := actorId,
    attachedDocuments := files.map docOfFile }

/-- `exports.createTask` from `backend/controllers/taskController.js`
(post-validation).  `newId` is the Mongo id generated on save. -/
def createTask (st : St) (actorId : String) (body : CreateBody)
    (files : List FileBlob) (newId : String) : St × Except TErr Task :=
  if files.length > MAX_DOCUMENTS_PER_TASK then
    ({ st with disk := unlinkAll st.disk (files.map (fun f => f.path)) },
      Except.error TErr.tooManyDocuments)
  else if userExists st.users body.assignedTo then
    let task := builtTask actorId body files newId
    ({ st with tasks := st.tasks ++ [task] }, Except.ok task)
  else
    ({ st with disk := unlinkAll st.disk (files.map (fun f => f.path)) },
      Except.error TErr.assignedUserNotFound)

/-- Body of an update request.  Every field is optional; `createdBy` may be
supplied by a client but the controller's destructuring never reads it.
`existingAttachedDocuments`, when present, is the list of `_id`s of existing
documents to retain (the `path` member sent alongside is never used by the
controller's reconciliation, which matches on `_id` only). -/
structure UpdateBody where
  title : Option String
  description : Option String
  status : Option String
  priority : Option String
  dueDate : Option String
  assignedTo : Option String
  existingAttachedDocuments : Option (List String)
  createdBy : Option String
deriving DecidableEq, Repr

/-- Documents of `task.attachedDocuments` kept by the reconciliation
(`docsToRetain`): those whose `_id` appears in the retain list; an absent
retain list keeps nothing. -/
def retainedDocs (t : Task) (r : Option (List String)) : List Doc :=
  match r with
  | some l => t.attachedDocuments.filter (fun d => l.contains d.id)
  | none => []

/-- Documents of `task.attachedDocuments` whose stored files the
reconciliation deletes (`documentsToRemove`): those whose `_id` is not in the
retain list; an absent retain list removes everything. -/
def removedDocs (t : Task) (r : Option (List String)) : List Doc :=
  match r with
  | some l => t.attachedDocuments.filter (fun d => !(l.contains d.id))
  | none => t.attachedDocuments

/-- Field writes of `updateTask`'s success path: only truthy supplied fields
overwrite (`task.title = title || task.title` and friends); `createdBy` is
never written; `attachedDocuments` is set to the reconciled combined list. -/
def applyUpdate (t : Task) (body : UpdateBody) (files : List FileBlob) : Task :=
  { t with
    title := fieldOr body.title t.title,
    description := fieldOr body.description t.description,
    status := fieldOr body.status t.status,
    priority := fieldOr body.priority t.priority,
    dueDate := fieldOr body.dueDate t.dueDate,
    assignedTo := fieldOr body.assignedTo t.assignedTo,
    attachedDocuments := retainedDocs t body.existingAttachedDocuments ++ files.map docOfFile }

/-- `exports.updateTask` from `backend/controllers/taskController.js`
(post-validation).  Order of checks follows the source: task lookup, access
check, assignee existence, document reconciliation, cap check, field writes,
save. -/
def updateTask (st : St) (actor : Actor) (tid : String) (body : UpdateBody)
    (files : List FileBlob) : St × Except TErr Task :=
  match findTaskById st.tasks tid with
  | none =>
      ({ st with disk := unlinkAll st.disk (files.map (fun f => f.path)) },
        Except.error TErr.taskNotFound)
  | some task =>
    if actor.role != ADMIN && task.createdBy != actor.id then
      ({ st with disk := unlinkAll st.disk (files.map (fun f => f.path)) },
        Except.error TErr.updateForbidden)
    else if truthy body.assignedTo && !(userExists st.users (body.assignedTo.getD "")) then
      ({ st with disk := unlinkAll st.disk (files.map (fun f => f.path)) },
        Except.error TErr.assignedUserNotFound)
    else
      let disk1 := unlinkAll st.disk ((removedDocs task body.existingAttachedDocuments).map (fun d => d.path))
      let combined := retainedDocs task body.existingAttachedDocuments ++ files.map docOfFile
      if combined.length > MAX_DOCUMENTS_PER_TASK then
        ({ st with disk := unlinkAll disk1 (files.map (fun f => f.path)) },
          Except.error TErr.tooManyDocuments)
      else
        let task' := applyUpdate task body files
        let saved := st.tasks.map (fun t => if t.id == tid then task' else t)
        ({ st with tasks := saved, disk := disk1 }, Except.ok task')

/-- `exports.deleteTask` from `backend/controllers/taskController.js`: lookup,
access check, delete every attached file (missing files tolerated by the
`fs.existsSync` guard), then `Task.deleteOne({ _id })`. -/
def deleteTask (st : St) (actor : Actor) (tid : String) : St × Except TErr Unit :=
  match findTaskById st.tasks tid with
  | none => (st, Except.error TErr.taskNotFound)
  | some task =>
    if actor.role != ADMIN && task.createdBy != actor.id then
      (st, Except.error TErr.updateForbidden)
    else
      ({ st with
         tasks := st.tasks.eraseP (fun t => t.id == tid),
         disk := unlinkAll st.disk (task.attachedDocuments.map (fun d => d.path)) },
        Except.ok ())

/-- The uploads directory (`path.join(__dirname, '..', 'uploads')`),
abstracted to its final component. -/
def uploadDir : String := "uploads"

/-- Split a character list into path segments at `/` separators. -/
def splitSlash : List Char → List Char → List (List Char)
  | acc, [] => [acc.reverse]
  | acc, c :: rest =>
      if c = '/' then acc.reverse :: splitSlash [] rest else splitSlash (c :: acc) rest

/-- Resolve `.` and `..` segments the way Node's `path.normalize` does for a
relative path: empty and `.` segments vanish, `..` pops the previous segment
when one exists, and is kept when the path escapes its root. -/
def normSegs : List (List Char) → List (List Char) → List (List Char)
  | stack, [] => stack.reverse
  | stack, seg :: rest =>
      if seg = [] ∨ seg = ['.'] then normSegs stack rest
      else if seg = ['.', '.'] then
        match stack with
        | [] => normSegs [['.', '.']] rest
        | top :: stackRest =>
            if top = ['.', '.'] then normSegs (seg :: stack) rest
            else normSegs stackRest rest
      else normSegs (seg :: stack) rest

/-- Glue path segments back together with `/` separators. -/
def joinSegs : List (List Char) → List Char
  | [] => []
  | [s] => s
  | s :: rest => s ++ '/' :: joinSegs rest

/-- `path.join(dir, filename)`: concatenate, split into segments, normalize
`.` and `..`, and glue; a fully collapsed path is `.` as in Node. -/
def joinPath (dir fn : String) : String :=
  match normSegs [] (splitSlash [] (dir.toList ++ '/' :: fn.toList)) with
  | [] => "."
  | s :: rest => String.mk (joinSegs (s :: rest))

/-- List-level prefix test, used to model `String.startsWith`. -/
def listLeads : List Char → List Char → Bool
  | [], _ => true
  | _ :: _, [] => false
  | a :: as, b :: bs => a == b && listLeads as bs

/-- String prefix test over the character lists. -/
def strLeads (pre s : String) : Bool := listLeads pre.toList s.toList

/-- A plain stored filename: no path separator and not the parent-directory
name, the shape every Multer-generated storage name has. -/
def plainFilename (fn : String) : Bool :=
  fn.toList.all (fun c => c != '/') && fn.toList != ['.', '.']

/-- `exports.downloadDocument` from `backend/controllers/taskController.js`:
build the candidate path, traversal guard, locate the owning task by attachment
filename (`Task.findOne({'attachedDocuments.filename': filename})`), access
check, then disk presence check. -/
def downloadDocument (st : St) (actor : Actor) (filename : String) : Except TErr String :=
  let filePath := joinPath uploadDir filename
  if !(strLeads uploadDir filePath) then Except.error TErr.invalidFilePath
  else
    match st.tasks.find? (fun t => t.attachedDocuments.any (fun d => d.filename == filename)) with
    | none => Except.error TErr.documentNotFound
    | some task =>
      if actor.role != ADMIN && task.createdBy != actor.id && task.assignedTo != actor.id then
        Except.error TErr.downloadForbidden
      else if st.disk.contains filePath then Except.ok filePath
      else Except.error TErr.fileMissingOnDisk

/-- Query filters accepted by `exports.getTasks` (`req.query`); the `dueDate`
parameter is the spec's `dueDateBefore`. -/
structure Filters where
  status : Option String
  priority : Option String
  dueDate : Option String
  assignedTo : Option String
  search : Option String
deriving DecidableEq, Repr

/-- An equality conjunct added by `if (field) query.field = field`. -/
def filterEq (o : Option String) (v : String) : Bool :=
  match o with
  | some s => if s = "" then true else v == s
  | none => true

/-- The `$lte` date conjunct added by `if (dueDate) query.dueDate = { $lte:
new Date(dueDate) }`; ISO date strings compare lexicographically. -/
def filterLe (o : Option String) (v : String) : Bool :=
  match o with
  | some s => if s = "" then true else decide (v ≤ s)
  | none => true

/-- Case-insensitive substring test over character lists. -/
def listHasSub (needle : List Char) : List Char → Bool
  | [] => listLeads needle []
  | c :: rest => listLeads needle (c :: rest) || listHasSub needle rest

/-- The `$regex: search, $options: 'i'` match, modelled as case-insensitive
substring containment (metacharacter-free patterns). -/
def strContainsCI (hay needle : String) : Bool :=
  listHasSub (needle.toList.map Char.toLower) (hay.toList.map Char.toLower)

/-- Does a task satisfy the Mongo query built by `exports.getTasks`?  The
search clauses and (for non-admins) the access-restriction clauses are pushed
into one flat `$or` list, exactly as `query.$or = [...(query.$or || []),
{createdBy}, {assignedTo}]` does; an empty `$or` list means no `$or` key was
set, which constrains nothing. -/
def taskMatchesQuery (f : Filters) (actor : Actor) (t : Task) : Bool :=
  let orClauses : List Bool :=
    (if truthy f.search then
      [strContainsCI t.title (f.search.getD ""), strContainsCI t.description (f.search.getD "")]
     else []) ++
    (if actor.role != ADMIN then [t.createdBy == actor.id, t.assignedTo == actor.id] else [])
  filterEq f.status t.status && filterEq f.priority t.priority &&
  filterLe f.dueDate t.dueDate && filterEq f.assignedTo t.assignedTo &&
  (orClauses.isEmpty || orClauses.any id)

/-- `exports.getTasks` result set (sorting and pagination permute and truncate
the list; they never add members, so the membership claims are stated on the
unpaginated query result). -/
def getTasks (st : St) (f : Filters) (actor : Actor) : List Task :=
  st.tasks.filter (taskMatchesQuery f actor)

/-- Membership in the disk set after a sequence of unlinks: the path was
present before and is not one of the deleted ones. -/
theorem mem_unlinkAll (ps : List String) (disk : List String) (q : String) :
    q ∈ unlinkAll disk ps ↔ q ∈ disk ∧ q ∉ ps := by
  induction ps generalizing disk with
  | nil => simp [unlinkAll]
  | cons p rest ih =>
      simp only [unlinkAll, List.foldl_cons] at *
      rw [ih]
      simp [unlink, List.mem_filter, bne_iff_ne]
      tauto

/-- A list is a prefix of itself extended on the right. -/
theorem listLeads_append (l r : List Char) : listLeads l (l ++ r) = true := by
  induction l with
  | nil => rfl
  | cons c cs ih => simp [listLeads, ih]

/-- Splitting a separator-free character list yields one segment. -/
theorem splitSlash_of_no_slash (acc l : List Char) (h : ∀ c ∈ l, c ≠ '/') :
    splitSlash acc l = [acc.reverse ++ l] := by
  induction l generalizing acc with
  | nil => simp [splitSlash]
  | cons c rest ih =>
      have hc : c ≠ '/' := h c (List.mem_cons_self c rest)
      simp only [splitSlash, if_neg hc]
      rw [ih (c :: acc) (fun d hd => h d (List.mem_cons_of_mem c hd))]
      simp

/-- Splitting at the first separator detaches the separator-free head. -/
theorem splitSlash_append (acc l₁ l₂ : List Char) (h : ∀ c ∈ l₁, c ≠ '/') :
    splitSlash acc (l₁ ++ '/' :: l₂) = (acc.reverse ++ l₁) :: splitSlash [] l₂ := by
  induction l₁ generalizing acc with
  | nil => simp [splitSlash]
  | cons c rest ih =>
      have hc : c ≠ '/' := h c (List.mem_cons_self c rest)
      simp only [List.cons_append, splitSlash, if_neg hc, List.append_eq]
      rw [ih (c :: acc) (fun d hd => h d (List.mem_cons_of_mem c hd))]
      simp

/-- For a plain filename the joined path stays inside the uploads directory,
so the traversal guard of `downloadDocument` accepts it. -/
theorem strLeads_joinPath_plain (fn : String) (h : plainFilename fn = true) :
    strLeads uploadDir (joinPath uploadDir fn) = true := by
  simp only [plainFilename, Bool.and_eq_true, List.all_eq_true, bne_iff_ne, ne_eq] at h
  obtain ⟨hslash, hdot⟩ := h
  have hns : ∀ c ∈ fn.toList, c ≠ '/' := fun c hc => hslash c hc
  unfold joinPath uploadDir
  rw [splitSlash_append [] "uploads".toList fn.toList (by decide),
    splitSlash_of_no_slash [] fn.toList hns]
  simp only [List.reverse_nil, List.nil_append]
  by_cases h0 : fn.toList = []
  · rw [h0]
    decide
  · by_cases h1 : fn.toList = ['.']
    · rw [h1]
      decide
    · have hstep : normSegs [] ["uploads".toList, fn.toList]
          = ["uploads".toList, fn.toList] := by
        show normSegs [] ("uploads".toList :: [fn.toList]) = _
        rw [show normSegs [] ("uploads".toList :: [fn.toList])
            = normSegs ["uploads".toList] [fn.toList] from by
          simp [normSegs]]
        unfold normSegs
        rw [if_neg (not_or.mpr ⟨h0, h1⟩), if_neg hdot]
        rfl
      rw [hstep]
      show listLeads "uploads".toList ("uploads".toList ++ '/' :: fn.toList) = true
      exact listLeads_append "uploads".toList ('/' :: fn.toList)

/-- Characterization of a successful `updateTask` run: when the task is found,
the access check passes, the assignee check passes and the combined document
list is within the cap, the run persists `applyUpdate` and deletes exactly the
de-retained documents' files. -/
theorem updateTask_ok_eq (st : St) (actor : Actor) (tid : String) (body : UpdateBody)
    (files : List FileBlob) (t : Task)
    (hfind : findTaskById st.tasks tid = some t)
    (hacc : (actor.role != ADMIN && t.createdBy != actor.id) = false)
    (hass : (truthy body.assignedTo && !(userExists st.users (body.assignedTo.getD ""))) = false)
    (hcap : (retainedDocs t body.existingAttachedDocuments ++ files.map docOfFile).length ≤ MAX_DOCUMENTS_PER_TASK) :
    updateTask st actor tid body files =
      ({ st with
         tasks := st.tasks.map (fun u => if u.id == tid then applyUpdate t body files else u),
         disk := unlinkAll st.disk ((removedDocs t body.existingAttachedDocuments).map (fun d => d.path)) },
       Except.ok (applyUpdate t body files)) := by
  unfold updateTask
  rw [hfind]
  simp only [hacc, hass, Bool.false_eq_true, if_false]
  rw [if_neg (by omega)]

/-- Characterization of an `updateTask` run rejected by the document cap. -/
theorem updateTask_tooMany_eq (st : St) (actor : Actor) (tid : String) (body : UpdateBody)
    (files : List FileBlob) (t : Task)
    (hfind : findTaskById st.tasks tid = some t)
    (hacc : (actor.role != ADMIN && t.createdBy != actor.id) = false)
    (hass : (truthy body.assignedTo && !(userExists st.users (body.assignedTo.getD ""))) = false)
    (hcap : (retainedDocs t body.existingAttachedDocuments ++ files.map docOfFile).length > MAX_DOCUMENTS_PER_TASK) :
    updateTask st actor tid body files =
      ({ st with
         disk := unlinkAll
           (unlinkAll st.disk ((removedDocs t body.existingAttachedDocuments).map (fun d => d.path)))
           (files.map (fun f => f.path)) },
       Except.error TErr.tooManyDocuments) := by
  unfold updateTask
  rw [hfind]
  simp only [hacc, hass, Bool.false_eq_true, if_false]
  rw [if_pos (by omega)]

/-- Characterization of an `updateTask` run rejected because the supplied
assignee does not exist: the new uploads are discarded and nothing else
changes. -/
theorem updateTask_assignErr_eq (st : St) (actor : Actor) (tid : String) (body : UpdateBody)
    (files : List FileBlob) (t : Task)
    (hfind : findTaskById st.tasks tid = some t)
    (hacc : (actor.role != ADMIN && t.createdBy != actor.id) = false)
    (hass : (truthy body.assignedTo && !(userExists st.users (body.assignedTo.getD ""))) = true) :
    updateTask st actor tid body files =
      ({ st with disk := unlinkAll st.disk (files.map (fun f => f.path)) },
       Except.error TErr.assignedUserNotFound) := by
  unfold updateTask
  rw [hfind]
  simp only [hacc, hass, Bool.false_eq_true, if_false, if_true]

/-- Characterization of a successful `createTask` run. -/
theorem createTask_ok_eq (st : St) (actorId : String) (body : CreateBody)
    (files : List FileBlob) (newId : String)
    (hlen : files.length ≤ MAX_DOCUMENTS_PER_TASK)
    (huser : userExists st.users body.assignedTo = true) :
    createTask st actorId body files newId =
      ({ st with tasks := st.tasks ++ [builtTask actorId body files newId] },
       Except.ok (builtTask actorId body files newId)) := by
  unfold createTask
  rw [if_neg (by omega), if_pos huser]

/-- Characterization of a `createTask` run rejected because the assignee does
not exist: the uploads are discarded and nothing else changes. -/
theorem createTask_assignErr_eq (st : St) (actorId : String) (body : CreateBody)
    (files : List FileBlob) (newId : String)
    (hlen : files.length ≤ MAX_DOCUMENTS_PER_TASK)
    (huser : userExists st.users body.assignedTo = false) :
    createTask st actorId body files newId =
      ({ st with disk := unlinkAll st.disk (files.map (fun f => f.path)) },
       Except.error TErr.assignedUserNotFound) := by
  unfold createTask
  rw [if_neg (by omega)]
  simp only [huser, Bool.false_eq_true, if_false]

/-- After erasing the unique element that `find?` located, no element of the
remainder satisfies a predicate that only that element satisfied. -/
theorem no_match_after_eraseP {α : Type} [DecidableEq α] (p q : α → Bool) (a : α) :
    ∀ l : List α, l.find? p = some a → (∀ x ∈ l, q x = true → x = a) →
      l.count a ≤ 1 → ∀ x ∈ l.eraseP p, q x = false := by
  intro l
  induction l with
  | nil => intro hf; simp [List.find?] at hf
  | cons b tl ih =>
      intro hf honly hcount x hx
      by_cases hb : p b = true
      · have hba : b = a := by
          rw [List.find?_cons_of_pos _ hb] at hf
          exact Option.some.inj hf
        subst hba
        rw [List.eraseP_cons_of_pos hb] at hx
        by_contra hq
        have hxa : x = b := honly x (List.mem_cons_of_mem b hx) (by
          cases hqx : q x
          · exact absurd hqx (by simpa using hq)
          · rfl)
        have hcnt : tl.count b = 0 := by
          rw [List.count_cons_self] at hcount
          omega
        have hnotin : b ∉ tl := by rwa [← List.count_eq_zero]
        exact hnotin (hxa ▸ hx)
      · have hbf : p b = false := by simpa using hb
        rw [List.find?_cons_of_neg _ (by simp [hbf])] at hf
        rw [List.eraseP_cons_of_neg (by simp [hbf])] at hx
        rcases List.mem_cons.mp hx with hxb | hxtl
        · cases hqx : q x
          · rfl
          · have hxa : x = a := honly x (by rw [hxb]; exact List.mem_cons_self b tl) hqx
            have hpa : p a = true := List.find?_some hf
            rw [← hxa, hxb] at hpa
            rw [hpa] at hbf
            cases hbf
        · exact ih hf (fun y hy hqy => honly y (List.mem_cons_of_mem b hy) hqy)
            (by
              rw [List.count_cons] at hcount
              omega) x hxtl

/-- A task owned by nobody involved in claim C1's scenario: created by `u2`,
assigned to `u3`, with a title containing the search text. -/
def c1Task : Task :=
  { id := "t9", title := "alpha report", description := "notes", status := "To Do",
    priority := "Low", dueDate := "2025-01-01", assignedTo := "u3", createdBy := "u2",
    attachedDocuments := [] }

/-- C1: the claim states that for a non-admin actor every returned task
satisfies the implicit restriction (creator or assignee) conjoined with the
caller filters.  The code instead merges the search `$or` with the restriction
`$or` into one disjunction, so a non-admin supplying `search` receives tasks
they neither created nor are assigned — here actor `u1` with search `alpha`
receives `c1Task`, created by `u2` and assigned to `u3`.  This contradicts the
controller's own comment ("Regular users can only see tasks they created or
are assigned to"), so the code, not the claim, is at fault. -/
theorem getTasks_nonadmin_search_leak :
    (Actor.mk "u1" "user").role ≠ ADMIN ∧
    c1Task.createdBy ≠ (Actor.mk "u1" "user").id ∧
    c1Task.assignedTo ≠ (Actor.mk "u1" "user").id ∧
    getTasks (St.mk [c1Task] [] []) (Filters.mk none none none none (some "alpha"))
      (Actor.mk "u1" "user") = [c1Task] := by
  decide

/-- Task used by claim C2's witness: created by `u1`, assigned to `u2`. -/
def w2Task : Task :=
  { id := "t1", title := "a", description := "b", status := "To Do", priority := "Low",
    dueDate := "2025-01-01", assignedTo := "u2", createdBy := "u1", attachedDocuments := [] }

/-- State used by claim C2's witness. -/
def w2St : St := { tasks := [w2Task], users := ["u1", "u2"], disk := [] }

/-- Update body with no field supplied, used by several witnesses. -/
def emptyUpdateBody : UpdateBody :=
  { title := none, description := none, status := none, priority := none,
    dueDate := none, assignedTo := none, existingAttachedDocuments := none, createdBy := none }

/-- C2: for a task that exists, `updateTask` and `deleteTask` are rejected by
the access check (`UpdateForbidden`) exactly when the actor is neither an
admin nor the task's creator — in particular a mere assignee is denied — for
every field/document combination in the request. -/
theorem update_delete_access_rule (st : St) (actor : Actor) (tid : String)
    (body : UpdateBody) (files : List FileBlob) (t : Task)
    (hfind : findTaskById st.tasks tid = some t) :
    (((updateTask st actor tid body files).2 = Except.error TErr.updateForbidden) ↔
      ¬ (actor.role = ADMIN ∨ actor.id = t.createdBy)) ∧
    (((deleteTask st actor tid).2 = Except.error TErr.updateForbidden) ↔
      ¬ (actor.role = ADMIN ∨ actor.id = t.createdBy)) := by
  unfold updateTask deleteTask
  rw [hfind]
  dsimp only
  cases hacc : (actor.role != ADMIN && t.createdBy != actor.id) with
  | true =>
      have hr : ¬ (actor.role = ADMIN ∨ actor.id = t.createdBy) := by
        simp only [Bool.and_eq_true, bne_iff_ne, ne_eq] at hacc
        rintro (h | h)
        · exact hacc.1 h
        · exact hacc.2 h.symm
      rw [if_pos rfl]
      exact ⟨iff_of_true rfl hr, iff_of_true rfl hr⟩
  | false =>
      have hr : actor.role = ADMIN ∨ actor.id = t.createdBy := by
        by_cases h1 : actor.role = ADMIN
        · exact Or.inl h1
        · right
          have h2 : (actor.role != ADMIN) = true := bne_iff_ne.mpr h1
          rw [h2, Bool.true_and] at hacc
          exact (by simpa using hacc : t.createdBy = actor.id).symm
      rw [if_neg (by simp)]
      constructor
      · apply iff_of_false _ (not_not_intro hr)
        split
        · simp
        · split
          · simp
          · simp
      · exact iff_of_false (by simp) (not_not_intro hr)

/-- C2 witness: the assignee `u2` of `w2Task` (a non-admin, not the creator)
is denied on both update and delete. -/
theorem update_delete_access_rule_witness :
    (updateTask w2St (Actor.mk "u2" "user") "t1" emptyUpdateBody []).2
        = Except.error TErr.updateForbidden ∧
    (deleteTask w2St (Actor.mk "u2" "user") "t1").2
        = Except.error TErr.updateForbidden := by
  have h := update_delete_access_rule w2St (Actor.mk "u2" "user") "t1" emptyUpdateBody []
    w2Task (by decide)
  exact ⟨h.1.mpr (by decide), h.2.mpr (by decide)⟩

/-- C3: any task returned by a successful `createTask` or `updateTask` has at
most `MAX_DOCUMENTS_PER_TASK` attached documents, whatever the retained and
newly uploaded combination was. -/
theorem task_attachment_cap (st : St) (aid : String) (cb : CreateBody)
    (cfs : List FileBlob) (nid : String) (st2 : St) (actor : Actor) (tid : String)
    (ub : UpdateBody) (ufs : List FileBlob) :
    (∀ tk : Task, (createTask st aid cb cfs nid).2 = Except.ok tk →
      tk.attachedDocuments.length ≤ MAX_DOCUMENTS_PER_TASK) ∧
    (∀ tk : Task, (updateTask st2 actor tid ub ufs).2 = Except.ok tk →
      tk.attachedDocuments.length ≤ MAX_DOCUMENTS_PER_TASK) := by
  constructor
  · intro tk h
    unfold createTask at h
    split at h
    · simp at h
    · rename_i hlen
      split at h
      · simp only [Except.ok.injEq] at h
        subst h
        simp only [builtTask, List.length_map]
        omega
      · simp at h
  · intro tk h
    simp only [updateTask] at h
    split at h
    · simp at h
    · split at h
      · simp at h
      · split at h
        · simp at h
        · split at h
          · simp at h
          · rename_i hcap
            simp only [Except.ok.injEq] at h
            subst h
            simp only [applyUpdate]
            omega

/-- C3 witness: a concrete successful create (no attachments) and a concrete
successful update (one retained document) both end within the cap. -/
theorem task_attachment_cap_witness :
    (builtTask "u1" (CreateBody.mk "a" "b" "To Do" "Low" "2025-01-01" "u1" none) [] "t2").attachedDocuments.length
        ≤ MAX_DOCUMENTS_PER_TASK ∧
    (applyUpdate w2Task emptyUpdateBody []).attachedDocuments.length ≤ MAX_DOCUMENTS_PER_TASK := by
  have h := task_attachment_cap w2St "u1" (CreateBody.mk "a" "b" "To Do" "Low" "2025-01-01" "u1" none)
    [] "t2" w2St (Actor.mk "u1" "user") "t1" emptyUpdateBody []
  exact ⟨h.1 _ (by decide), h.2 _ (by decide)⟩

/-- C4: `createTask` persists the acting user's id as `createdBy`, whatever
`createdBy` value the client supplied in the body, and a successful
`updateTask` leaves the task's `createdBy` exactly as it was, whatever the
request payload contained. -/
theorem createdBy_forced_and_immutable (st : St) (aid : String) (cb : CreateBody)
    (cfs : List FileBlob) (nid : String) (st2 : St) (actor : Actor) (tid : String)
    (ub : UpdateBody) (ufs : List FileBlob) (t : Task)
    (hfind : findTaskById st2.tasks tid = some t) :
    (∀ tk : Task, (createTask st aid cb cfs nid).2 = Except.ok tk → tk.createdBy = aid) ∧
    (∀ tk : Task, (updateTask st2 actor tid ub ufs).2 = Except.ok tk → tk.createdBy = t.createdBy) := by
  constructor
  · intro tk h
    unfold createTask at h
    split at h
    · simp at h
    · split at h
      · simp only [Except.ok.injEq] at h
        subst h
        rfl
      · simp at h
  · intro tk h
    simp only [updateTask, hfind] at h
    split at h
    · simp at h
    · split at h
      · simp at h
      · split at h
        · simp at h
        · simp only [Except.ok.injEq] at h
          subst h
          rfl

/-- C4 witness: a concrete create with a client-supplied `createdBy` of `evil`
still records the actor `u1`, and a concrete update that supplies `createdBy`
in the payload leaves the stored creator untouched. -/
theorem createdBy_forced_and_immutable_witness :
    (builtTask "u1" (CreateBody.mk "a" "b" "To Do" "Low" "2025-01-01" "u1" (some "evil")) [] "t2").createdBy = "u1" ∧
    (applyUpdate w2Task
      { emptyUpdateBody with createdBy := some "evil" } []).createdBy = w2Task.createdBy := by
  have h := createdBy_forced_and_immutable w2St "u1"
    (CreateBody.mk "a" "b" "To Do" "Low" "2025-01-01" "u1" (some "evil")) [] "t2"
    w2St (Actor.mk "u1" "user") "t1" { emptyUpdateBody with createdBy := some "evil" } []
    w2Task (by decide)
  exact ⟨h.1 _ (by decide), h.2 _ (by decide)⟩

/-- C5: when the retain set is entirely absent from an update request, a
successful `updateTask` removes every previously attached document (its
stored file is gone from disk) and the resulting attachment list is exactly
the newly uploaded files, so its length is the new-upload count. -/
theorem retain_default_removes_all (st : St) (actor : Actor) (tid : String)
    (ub : UpdateBody) (ufs : List FileBlob) (t : Task) (st' : St) (tk : Task)
    (hfind : findTaskById st.tasks tid = some t)
    (hnone : ub.existingAttachedDocuments = none)
    (hrun : updateTask st actor tid ub ufs = (st', Except.ok tk)) :
    tk.attachedDocuments = ufs.map docOfFile ∧
    tk.attachedDocuments.length = ufs.length ∧
    ∀ d ∈ t.attachedDocuments, d.path ∉ st'.disk := by
  simp only [updateTask, hfind] at hrun
  split at hrun
  · simp at hrun
  · split at hrun
    · simp at hrun
    · split at hrun
      · simp at hrun
      · simp only [Prod.mk.injEq, Except.ok.injEq] at hrun
        obtain ⟨hst, htk⟩ := hrun
        subst htk
        refine ⟨?_, ?_, ?_⟩
        · simp [applyUpdate, retainedDocs, hnone]
        · simp [applyUpdate, retainedDocs, hnone]
        · intro d hd hmem
          rw [← hst] at hmem
          simp only [St.mk.injEq] at hmem ⊢
          rcases (mem_unlinkAll _ _ _).mp hmem with ⟨-, hnot⟩
          apply hnot
          simp only [removedDocs, hnone]
          exact List.mem_map_of_mem (fun d => d.path) hd

/-- Task with two attached documents, used by claim C5's witness. -/
def w5Task : Task :=
  { id := "t1", title := "a", description := "b", status := "To Do", priority := "Low",
    dueDate := "2025-01-01", assignedTo := "u1", createdBy := "u1",
    attachedDocuments :=
      [ { id := "d1", filename := "one.pdf", path := "uploads/one", mimetype := "application/pdf" },
        { id := "d2", filename := "two.pdf", path := "uploads/two", mimetype := "application/pdf" } ] }

/-- State used by claim C5's witness: the two files exist on disk. -/
def w5St : St := { tasks := [w5Task], users := ["u1"], disk := ["uploads/one", "uploads/two"] }

/-- C5 witness: updating `w5Task` with the retain set absent and no uploads
empties the attachment list and deletes both stored files. -/
theorem retain_default_removes_all_witness :
    ((updateTask w5St (Actor.mk "u1" "user") "t1" emptyUpdateBody []).2 = Except.ok (applyUpdate w5Task emptyUpdateBody [])) ∧
    (applyUpdate w5Task emptyUpdateBody []).attachedDocuments = [] ∧
    (applyUpdate w5Task emptyUpdateBody []).attachedDocuments.length = 0 ∧
    "uploads/one" ∉ ((updateTask w5St (Actor.mk "u1" "user") "t1" emptyUpdateBody []).1).disk := by
  have h := retain_default_removes_all w5St (Actor.mk "u1" "user") "t1" emptyUpdateBody []
    w5Task ((updateTask w5St (Actor.mk "u1" "user") "t1" emptyUpdateBody []).1)
    (applyUpdate w5Task emptyUpdateBody []) (by decide) (by decide) (by decide)
  refine ⟨by decide, h.1, h.2.1, ?_⟩
  exact h.2.2 { id := "d1", filename := "one.pdf", path := "uploads/one", mimetype := "application/pdf" }
    (by decide)

/-- C6: an update whose retained-plus-new document count exceeds the cap
fails with `TooManyDocuments`; the new uploads are deleted from storage, the
task collection is untouched, and the files already deleted by the
reconciliation's removal step stay deleted (they are not restored). -/
theorem too_many_documents_unwinds (st : St) (actor : Actor) (tid : String)
    (ub : UpdateBody) (ufs : List FileBlob) (t : Task)
    (hfind : findTaskById st.tasks tid = some t)
    (hacc : (actor.role != ADMIN && t.createdBy != actor.id) = false)
    (hass : (truthy ub.assignedTo && !(userExists st.users (ub.assignedTo.getD ""))) = false)
    (hcap : (retainedDocs t ub.existingAttachedDocuments ++ ufs.map docOfFile).length
        > MAX_DOCUMENTS_PER_TASK) :
    (updateTask st actor tid ub ufs).2 = Except.error TErr.tooManyDocuments ∧
    ((updateTask st actor tid ub ufs).1).tasks = st.tasks ∧
    (∀ f ∈ ufs, f.path ∉ ((updateTask st actor tid ub ufs).1).disk) ∧
    (∀ d ∈ removedDocs t ub.existingAttachedDocuments,
      d.path ∉ ((updateTask st actor tid ub ufs).1).disk) := by
  rw [updateTask_tooMany_eq st actor tid ub ufs t hfind hacc hass hcap]
  refine ⟨rfl, rfl, ?_, ?_⟩
  · intro f hf hmem
    rcases (mem_unlinkAll _ _ _).mp hmem with ⟨-, hnot⟩
    exact hnot (List.mem_map_of_mem (fun f => f.path) hf)
  · intro d hd hmem
    rcases (mem_unlinkAll _ _ _).mp hmem with ⟨hin, -⟩
    rcases (mem_unlinkAll _ _ _).mp hin with ⟨-, hnot⟩
    exact hnot (List.mem_map_of_mem (fun d => d.path) hd)

/-- Upload used by claim C6's witness. -/
def w6File : FileBlob := { originalname := "new.pdf", path := "uploads/new", mimetype := "application/pdf" }

/-- Task with three attached documents, used by claim C6's witness. -/
def w6Task : Task :=
  { id := "t1", title := "a", description := "b", status := "To Do", priority := "Low",
    dueDate := "2025-01-01", assignedTo := "u1", createdBy := "u1",
    attachedDocuments :=
      [ { id := "d1", filename := "one.pdf", path := "uploads/one", mimetype := "application/pdf" },
        { id := "d2", filename := "two.pdf", path := "uploads/two", mimetype := "application/pdf" },
        { id := "d3", filename := "three.pdf", path := "uploads/three", mimetype := "application/pdf" } ] }

/-- State used by claim C6's witness. -/
def w6St : St :=
  { tasks := [w6Task], users := ["u1"],
    disk := ["uploads/one", "uploads/two", "uploads/three", "uploads/new"] }

/-- Update body retaining all three existing documents, used by C6's witness. -/
def w6Body : UpdateBody :=
  { title := none, description := none, status := none, priority := none, dueDate := none,
    assignedTo := none, existingAttachedDocuments := some ["d1", "d2", "d3"], createdBy := none }

/-- C6 witness: retaining 3 documents while uploading a 4th is rejected with
`TooManyDocuments`; the new upload is discarded and the task list unchanged. -/
theorem too_many_documents_unwinds_witness :
    (updateTask w6St (Actor.mk "u1" "user") "t1" w6Body [w6File]).2
        = Except.error TErr.tooManyDocuments ∧
    ((updateTask w6St (Actor.mk "u1" "user") "t1" w6Body [w6File]).1).tasks = w6St.tasks ∧
    w6File.path ∉ ((updateTask w6St (Actor.mk "u1" "user") "t1" w6Body [w6File]).1).disk := by
  have h := too_many_documents_unwinds w6St (Actor.mk "u1" "user") "t1" w6Body [w6File]
    w6Task (by decide) (by decide) (by decide) (by decide)
  exact ⟨h.1, h.2.1, h.2.2.1 w6File (List.mem_cons_self w6File [])⟩

/-- Task used by claim C7's counterexample: assigned to `u2`, a user whose
record no longer exists. -/
def c7Task : Task :=
  { id := "t1", title := "a", description := "b", status := "To Do", priority := "Low",
    dueDate := "2025-01-01", assignedTo := "u2", createdBy := "u1", attachedDocuments := [] }

/-- State used by claim C7's counterexample: only `u1` exists. -/
def c7St : St := { tasks := [c7Task], users := ["u1"], disk := [] }

/-- Update body used by claim C7's counterexample: it re-sends the task's
current assignee `u2` unchanged. -/
def c7Body : UpdateBody :=
  { title := none, description := none, status := none, priority := none, dueDate := none,
    assignedTo := some "u2", existingAttachedDocuments := some [], createdBy := none }

/-- C7 counterexample: the claim says `updateTask` fails with
`AssignedUserNotFound` exactly when the supplied assignee is present AND
differs from the task's current assignee AND does not resolve.  Here the
creator re-sends the current assignee (no difference), whose user record was
deleted, and the controller still fails with `AssignedUserNotFound`: the
controller checks existence whenever `assignedTo` is truthy, with no
"differs from current" condition. -/
theorem update_assignee_check_counterexample :
    (updateTask c7St (Actor.mk "u1" "user") "t1" c7Body []).2
        = Except.error TErr.assignedUserNotFound ∧
    (findTaskById c7St.tasks "t1").map Task.assignedTo = c7Body.assignedTo := by
  decide

/-- C7 amended: `createTask` (with the collaborator-guaranteed upload count)
fails with `AssignedUserNotFound` exactly when the assignee does not resolve,
and `updateTask` (past lookup and access check) fails with
`AssignedUserNotFound` exactly when the supplied assignee is truthy and does
not resolve — with no "differs from the current assignee" condition; every
such failure discards the request's uploads from storage and persists no task
state. -/
theorem assigned_user_not_found_amended (st : St) (aid : String) (cb : CreateBody)
    (cfs : List FileBlob) (nid : String) (st2 : St) (actor : Actor) (tid : String)
    (ub : UpdateBody) (ufs : List FileBlob) (t : Task)
    (hclen : cfs.length ≤ MAX_DOCUMENTS_PER_TASK)
    (hfind : findTaskById st2.tasks tid = some t)
    (hacc : (actor.role != ADMIN && t.createdBy != actor.id) = false) :
    ((createTask st aid cb cfs nid).2 = Except.error TErr.assignedUserNotFound ↔
      userExists st.users cb.assignedTo = false) ∧
    (userExists st.users cb.assignedTo = false →
      ((createTask st aid cb cfs nid).1).tasks = st.tasks ∧
      ∀ f ∈ cfs, f.path ∉ ((createTask st aid cb cfs nid).1).disk) ∧
    ((updateTask st2 actor tid ub ufs).2 = Except.error TErr.assignedUserNotFound ↔
      (truthy ub.assignedTo && !(userExists st2.users (ub.assignedTo.getD ""))) = true) ∧
    ((truthy ub.assignedTo && !(userExists st2.users (ub.assignedTo.getD ""))) = true →
      ((updateTask st2 actor tid ub ufs).1).tasks = st2.tasks ∧
      ∀ f ∈ ufs, f.path ∉ ((updateTask st2 actor tid ub ufs).1).disk) := by
  refine ⟨?_, ?_, ?_, ?_⟩
  · cases huser : userExists st.users cb.assignedTo with
    | false =>
        rw [createTask_assignErr_eq st aid cb cfs nid hclen huser]
        exact iff_of_true rfl rfl
    | true =>
        rw [createTask_ok_eq st aid cb cfs nid hclen huser]
        exact iff_of_false (by simp) (by simp)
  · intro huser
    rw [createTask_assignErr_eq st aid cb cfs nid hclen huser]
    refine ⟨rfl, ?_⟩
    intro f hf hmem
    rcases (mem_unlinkAll _ _ _).mp hmem with ⟨-, hnot⟩
    exact hnot (List.mem_map_of_mem (fun f => f.path) hf)
  · cases hass : (truthy ub.assignedTo && !(userExists st2.users (ub.assignedTo.getD ""))) with
    | false =>
        by_cases hcap : (retainedDocs t ub.existingAttachedDocuments ++ ufs.map docOfFile).length
            > MAX_DOCUMENTS_PER_TASK
        · rw [updateTask_tooMany_eq st2 actor tid ub ufs t hfind hacc hass hcap]
          exact iff_of_false (by simp) (by simp)
        · rw [updateTask_ok_eq st2 actor tid ub ufs t hfind hacc hass (by omega)]
          exact iff_of_false (by simp) (by simp)
    | true =>
        rw [updateTask_assignErr_eq st2 actor tid ub ufs t hfind hacc hass]
        exact iff_of_true rfl rfl
  · intro hass
    rw [updateTask_assignErr_eq st2 actor tid ub ufs t hfind hacc hass]
    refine ⟨rfl, ?_⟩
    intro f hf hmem
    rcases (mem_unlinkAll _ _ _).mp hmem with ⟨-, hnot⟩
    exact hnot (List.mem_map_of_mem (fun f => f.path) hf)

/-- Upload used by claim C7's witness. -/
def w7File : FileBlob := { originalname := "new.pdf", path := "uploads/new7", mimetype := "application/pdf" }

/-- State used by claim C7's witness: `u9` does not exist. -/
def w7St : St := { tasks := [w2Task], users := ["u1", "u2"], disk := ["uploads/new7"] }

/-- Create body naming the missing assignee `u9`, used by C7's witness. -/
def w7CreateBody : CreateBody :=
  { title := "a", description := "b", status := "To Do", priority := "Low",
    dueDate := "2025-01-01", assignedTo := "u9", createdBy := none }

/-- Update body naming the missing assignee `u9`, used by C7's witness. -/
def w7UpdateBody : UpdateBody :=
  { title := none, description := none, status := none, priority := none, dueDate := none,
    assignedTo := some "u9", existingAttachedDocuments := none, createdBy := none }

/-- C7 witness: create and update both fail with `AssignedUserNotFound` for
the missing assignee `u9`, and the new upload is discarded from storage. -/
theorem assigned_user_not_found_amended_witness :
    (createTask w7St "u1" w7CreateBody [w7File] "t2").2 = Except.error TErr.assignedUserNotFound ∧
    (updateTask w7St (Actor.mk "u1" "user") "t1" w7UpdateBody [w7File]).2
        = Except.error TErr.assignedUserNotFound ∧
    w7File.path ∉ ((updateTask w7St (Actor.mk "u1" "user") "t1" w7UpdateBody [w7File]).1).disk := by
  have h := assigned_user_not_found_amended w7St "u1" w7CreateBody [w7File] "t2"
    w7St (Actor.mk "u1" "user") "t1" w7UpdateBody [w7File] w2Task
    (by decide) (by decide) (by decide)
  exact ⟨h.1.mpr (by decide), h.2.2.1.mpr (by decide),
    (h.2.2.2 (by decide)).2 w7File (List.mem_cons_self w7File [])⟩

/-- First document named `report.pdf`, used by claim C8's counterexample. -/
def c8Doc1 : Doc := { id := "p1", filename := "report.pdf", path := "uploads/p1", mimetype := "application/pdf" }

/-- Second document also named `report.pdf` but owned by another task, used by
claim C8's counterexample. -/
def c8Doc2 : Doc := { id := "p2", filename := "report.pdf", path := "uploads/p2", mimetype := "application/pdf" }

/-- Task deleted in claim C8's counterexample. -/
def c8T1 : Task :=
  { id := "t1", title := "a", description := "b", status := "To Do", priority := "Low",
    dueDate := "2025-01-01", assignedTo := "u1", createdBy := "u1", attachedDocuments := [c8Doc1] }

/-- Surviving task referencing the same filename, in claim C8's
counterexample. -/
def c8T2 : Task :=
  { id := "t2", title := "a", description := "b", status := "To Do", priority := "Low",
    dueDate := "2025-01-01", assignedTo := "u2", createdBy := "u2", attachedDocuments := [c8Doc2] }

/-- State used by claim C8's counterexample. -/
def c8St : St := { tasks := [c8T1, c8T2], users := ["u1", "u2"], disk := ["uploads/p1", "uploads/p2"] }

/-- C8 counterexample: `report.pdf` was in the deleted task's attachment set,
yet after the successful delete `resolveDocumentForDownload` does not answer
`DocumentNotFound`, because document lookup is by (original) filename across
all tasks and another task carries an attachment with the same name. -/
theorem cascade_delete_counterexample :
    (deleteTask c8St (Actor.mk "u1" "user") "t1").2 = Except.ok () ∧
    "report.pdf" ∈ c8T1.attachedDocuments.map (fun d => d.filename) ∧
    downloadDocument ((deleteTask c8St (Actor.mk "u1" "user") "t1").1)
        (Actor.mk "u2" "user") "report.pdf" ≠ Except.error TErr.documentNotFound := by
  decide

/-- C8 amended: a successful `deleteTask` deletes the stored file of every
attached document before removing the task record, and afterwards
`resolveDocumentForDownload` answers `DocumentNotFound` for any plain
filename (no path separator, not the parent-directory name — the shape of
every Multer-generated storage name) of the deleted task's attachment set
that no other task's attachment set contains, for every actor. -/
theorem cascade_delete_amended (st : St) (actor actor2 : Actor) (tid fn : String) (t : Task)
    (hplain : plainFilename fn = true)
    (hfind : findTaskById st.tasks tid = some t)
    (hacc : (actor.role != ADMIN && t.createdBy != actor.id) = false)
    (honce : st.tasks.count t ≤ 1)
    (_hfn : fn ∈ t.attachedDocuments.map (fun d => d.filename))
    (honly : ∀ u ∈ st.tasks, u.attachedDocuments.any (fun d => d.filename == fn) = true → u = t) :
    (deleteTask st actor tid).2 = Except.ok () ∧
    (∀ d ∈ t.attachedDocuments, d.path ∉ ((deleteTask st actor tid).1).disk) ∧
    downloadDocument ((deleteTask st actor tid).1) actor2 fn
        = Except.error TErr.documentNotFound := by
  have hdel : deleteTask st actor tid =
      ({ st with
         tasks := st.tasks.eraseP (fun u => u.id == tid),
         disk := unlinkAll st.disk (t.attachedDocuments.map (fun d => d.path)) },
       Except.ok ()) := by
    unfold deleteTask
    rw [hfind]
    dsimp only
    rw [if_neg (by simp [hacc])]
  rw [hdel]
  refine ⟨rfl, ?_, ?_⟩
  · intro d hd hmem
    rcases (mem_unlinkAll _ _ _).mp hmem with ⟨-, hnot⟩
    exact hnot (List.mem_map_of_mem (fun d => d.path) hd)
  · unfold downloadDocument
    rw [if_neg (by simp [strLeads_joinPath_plain fn hplain])]
    dsimp only
    have hnone : (st.tasks.eraseP (fun u => u.id == tid)).find?
        (fun u => u.attachedDocuments.any (fun d => d.filename == fn)) = none := by
      rw [List.find?_eq_none]
      intro x hx
      have hfind' : st.tasks.find? (fun u => u.id == tid) = some t := hfind
      have hq := no_match_after_eraseP (fun u => u.id == tid)
        (fun u => u.attachedDocuments.any (fun d => d.filename == fn)) t st.tasks
        hfind' honly honce x hx
      simp [hq]
    rw [hnone]

/-- Task owning `only.pdf`, used by claim C8's witness. -/
def w8T1 : Task :=
  { id := "t1", title := "a", description := "b", status := "To Do", priority := "Low",
    dueDate := "2025-01-01", assignedTo := "u1", createdBy := "u1",
    attachedDocuments :=
      [ { id := "a1", filename := "only.pdf", path := "uploads/a1", mimetype := "application/pdf" } ] }

/-- Unrelated surviving task, used by claim C8's witness. -/
def w8T2 : Task :=
  { id := "t2", title := "a", description := "b", status := "To Do", priority := "Low",
    dueDate := "2025-01-01", assignedTo := "u2", createdBy := "u2",
    attachedDocuments :=
      [ { id := "a2", filename := "other.pdf", path := "uploads/a2", mimetype := "application/pdf" } ] }

/-- State used by claim C8's witness: one task owning `only.pdf`, another task
with an unrelated attachment. -/
def w8St : St := { tasks := [w8T1, w8T2], users := ["u1", "u2"], disk := ["uploads/a1", "uploads/a2"] }

/-- C8 witness: deleting `t1` removes its stored file and afterwards the
download resolution of `only.pdf` answers `DocumentNotFound`, even for an
admin. -/
theorem cascade_delete_amended_witness :
    (deleteTask w8St (Actor.mk "u1" "user") "t1").2 = Except.ok () ∧
    "uploads/a1" ∉ ((deleteTask w8St (Actor.mk "u1" "user") "t1").1).disk ∧
    downloadDocument ((deleteTask w8St (Actor.mk "u1" "user") "t1").1)
        (Actor.mk "boss" ADMIN) "only.pdf" = Except.error TErr.documentNotFound := by
  have h := cascade_delete_amended w8St (Actor.mk "u1" "user") (Actor.mk "boss" ADMIN)
    "t1" "only.pdf" w8T1
    (by decide) (by decide) (by decide) (by decide) (by decide) (by decide)
  exact ⟨h.1,
    h.2.1 { id := "a1", filename := "only.pdf", path := "uploads/a1", mimetype := "application/pdf" }
      (by decide),
    h.2.2⟩

/-- State used by claim C9's counterexample and witness: one task whose single
attachment `ghost.pdf` has no corresponding file on disk, and nothing
references `absent.pdf` or `..`. -/
def w9St : St :=
  { tasks :=
      [ { id := "t1", title := "a", description := "b", status := "To Do", priority := "Low",
          dueDate := "2025-01-01", assignedTo := "u2", createdBy := "u1",
          attachedDocuments :=
            [ { id := "g1", filename := "ghost.pdf", path := "uploads/g1", mimetype := "application/pdf" } ] } ],
    users := ["u1", "u2"], disk := ["uploads/unrelated", "uploads/absent.pdf"] }

/-- C9 counterexample: no task of `w9St` references the filename `..`, yet
`resolveDocumentForDownload` does not answer `DocumentNotFound` there: the
joined path collapses out of the uploads directory, the traversal guard
fires, and the answer is `Invalid file path.` — so the claim's taxonomy does
not hold for every filename. -/
theorem download_dotdot_counterexample :
    w9St.tasks.find? (fun u => u.attachedDocuments.any (fun d => d.filename == "..")) = none ∧
    downloadDocument w9St (Actor.mk "u1" "user") ".." = Except.error TErr.invalidFilePath ∧
    (Except.error TErr.invalidFilePath : Except TErr String)
        ≠ Except.error TErr.documentNotFound := by
  decide

/-- C9 amended: for every plain filename (no path separator, not the
parent-directory name — the shape of every Multer-generated storage name),
`resolveDocumentForDownload` answers `DocumentNotFound` whenever no task's
attachment set contains the requested filename, whatever the disk contents;
and when the filename lookup finds a task and the actor passes the download
access rule but the file is absent from storage, it answers the distinct
error `FileMissingOnDisk`.  A filename rejected by the traversal guard
yields `InvalidFilePath` instead. -/
theorem download_error_taxonomy (st : St) (actor : Actor) (fn : String)
    (hplain : plainFilename fn = true) :
    ((∀ t ∈ st.tasks, ∀ d ∈ t.attachedDocuments, d.filename ≠ fn) →
      downloadDocument st actor fn = Except.error TErr.documentNotFound) ∧
    (∀ t : Task,
      st.tasks.find? (fun u => u.attachedDocuments.any (fun d => d.filename == fn)) = some t →
      (actor.role = ADMIN ∨ actor.id = t.createdBy ∨ actor.id = t.assignedTo) →
      joinPath uploadDir fn ∉ st.disk →
      downloadDocument st actor fn = Except.error TErr.fileMissingOnDisk) := by
  constructor
  · intro hno
    unfold downloadDocument
    rw [if_neg (by simp [strLeads_joinPath_plain fn hplain])]
    have hnone : st.tasks.find?
        (fun u => u.attachedDocuments.any (fun d => d.filename == fn)) = none := by
      rw [List.find?_eq_none]
      intro x hx hq
      obtain ⟨d, hd, hbeq⟩ := List.any_eq_true.mp hq
      exact hno x hx d hd (by simpa using hbeq)
    rw [hnone]
  · intro t hfindt hallow hdisk
    unfold downloadDocument
    rw [if_neg (by simp [strLeads_joinPath_plain fn hplain])]
    rw [hfindt]
    dsimp only
    have hcond : (actor.role != ADMIN && t.createdBy != actor.id && t.assignedTo != actor.id)
        = false := by
      rcases hallow with h | h | h
      · simp [h]
      · simp [h.symm]
      · simp [h.symm]
    rw [hcond]
    rw [if_neg (by simp)]
    have hmem : st.disk.contains (joinPath uploadDir fn) = false := by
      simpa using hdisk
    rw [hmem]
    rw [if_neg (by simp)]

/-- C9 witness: `absent.pdf` is unreferenced, so the lookup answers
`DocumentNotFound` even though a file of that name sits in the uploads
directory; `ghost.pdf` is referenced and the creator passes the access rule,
but the joined path is missing from disk, so the answer is
`FileMissingOnDisk`. -/
theorem download_error_taxonomy_witness :
    downloadDocument w9St (Actor.mk "u1" "user") "absent.pdf"
        = Except.error TErr.documentNotFound ∧
    downloadDocument w9St (Actor.mk "u1" "user") "ghost.pdf"
        = Except.error TErr.fileMissingOnDisk := by
  have h := download_error_taxonomy w9St (Actor.mk "u1" "user") "absent.pdf" (by decide)
  have h2 := download_error_taxonomy w9St (Actor.mk "u1" "user") "ghost.pdf" (by decide)
  refine ⟨h.1 (by decide), ?_⟩
  exact h2.2
    { id := "t1", title := "a", description := "b", status := "To Do", priority := "Low",
      dueDate := "2025-01-01", assignedTo := "u2", createdBy := "u1",
      attachedDocuments :=
        [ { id := "g1", filename := "ghost.pdf", path := "uploads/g1", mimetype := "application/pdf" } ] }
    (by decide) (by decide) (by decide)

/-- A field left untouched by `x || old` when the supplied value is absent or
falsy. -/
theorem fieldOr_of_not_truthy (o : Option String) (old : String) (h : truthy o = false) :
    fieldOr o old = old := by
  cases o with
  | none => rfl
  | some s =>
      have hs : s = "" := by simpa [truthy] using h
      simp [fieldOr, hs]

/-- The `x || old` idiom can only produce the empty string when the stored
value was already empty. -/
theorem fieldOr_empty (o : Option String) (old : String) (h : fieldOr o old = "") :
    old = "" := by
  cases o with
  | none => exact h
  | some s =>
      by_cases hs : s = ""
      · simpa [fieldOr, hs] using h
      · rw [fieldOr, if_neg hs] at h
        exact absurd h hs

/-- C10: in a successful `updateTask`, any of the six scalar fields that was
supplied with a falsy value (absent or the empty string) keeps the task's
stored value, and consequently no update can turn a non-empty stored field
into the empty string. -/
theorem falsy_update_fields_unchanged (st : St) (actor : Actor) (tid : String)
    (ub : UpdateBody) (ufs : List FileBlob) (t : Task) (tk : Task)
    (hfind : findTaskById st.tasks tid = some t)
    (hrun : (updateTask st actor tid ub ufs).2 = Except.ok tk) :
    (truthy ub.title = false → tk.title = t.title) ∧
    (truthy ub.description = false → tk.description = t.description) ∧
    (truthy ub.status = false → tk.status = t.status) ∧
    (truthy ub.priority = false → tk.priority = t.priority) ∧
    (truthy ub.dueDate = false → tk.dueDate = t.dueDate) ∧
    (truthy ub.assignedTo = false → tk.assignedTo = t.assignedTo) ∧
    (tk.title = "" → t.title = "") ∧
    (tk.description = "" → t.description = "") ∧
    (tk.status = "" → t.status = "") ∧
    (tk.priority = "" → t.priority = "") ∧
    (tk.dueDate = "" → t.dueDate = "") ∧
    (tk.assignedTo = "" → t.assignedTo = "") := by
  simp only [updateTask, hfind] at hrun
  split at hrun
  · simp at hrun
  · split at hrun
    · simp at hrun
    · split at hrun
      · simp at hrun
      · simp only [Except.ok.injEq] at hrun
        subst hrun
        exact ⟨fun h => fieldOr_of_not_truthy ub.title t.title h,
          fun h => fieldOr_of_not_truthy ub.description t.description h,
          fun h => fieldOr_of_not_truthy ub.status t.status h,
          fun h => fieldOr_of_not_truthy ub.priority t.priority h,
          fun h => fieldOr_of_not_truthy ub.dueDate t.dueDate h,
          fun h => fieldOr_of_not_truthy ub.assignedTo t.assignedTo h,
          fun h => fieldOr_empty ub.title t.title h,
          fun h => fieldOr_empty ub.description t.description h,
          fun h => fieldOr_empty ub.status t.status h,
          fun h => fieldOr_empty ub.priority t.priority h,
          fun h => fieldOr_empty ub.dueDate t.dueDate h,
          fun h => fieldOr_empty ub.assignedTo t.assignedTo h⟩

/-- Update body supplying every scalar field as the empty string, used by
claim C10's witness. -/
def w10Body : UpdateBody :=
  { title := some "", description := some "", status := some "", priority := some "",
    dueDate := some "", assignedTo := some "", existingAttachedDocuments := none,
    createdBy := none }

/-- C10 witness: an update on `w2Task` that supplies `title` (and every other
scalar field) as the empty string leaves the stored title `a` unchanged. -/
theorem falsy_update_fields_unchanged_witness :
    (applyUpdate w2Task w10Body []).title = w2Task.title ∧
    (applyUpdate w2Task w10Body []).assignedTo = w2Task.assignedTo := by
  have h := falsy_update_fields_unchanged w2St (Actor.mk "u1" "user") "t1" w10Body []
    w2Task (applyUpdate w2Task w10Body []) (by decide) (by decide)
  exact ⟨h.1 (by decide), h.2.2.2.2.2.1 (by decide)⟩

end TaskManager
